import Mathlib

/-!
Shallow embedding of the ITK-SNAP GUI model layer:
GlobalUIModel (src/GUI/Model/GlobalUIModel.cxx) and
PolygonDrawingInteractionMode (src/unnamed/part_001).

External objects (IRISApplication driver, GenericImageData, GlobalState,
SliceWindowCoordinator, Qt events) are modelled as explicit record states;
member functions become state-passing Lean functions; calls into delegates
or model objects become fields of function type; sequences of side effects
become explicit event traces.
-/

/-- Modulus of the C++ unsigned int type used by Vector3ui. -/
def UINT_MOD : Nat := 4294967296

/-- Addition of C++ unsigned ints (wraps modulo 2^32). -/
def uadd (a b : Nat) : Nat := (a + b) % UINT_MOD

/-- Subtraction of C++ unsigned ints (wraps modulo 2^32). -/
def usub (a b : Nat) : Nat := (a + (UINT_MOD - b % UINT_MOD)) % UINT_MOD

/-- Embedding of Vector3ui: a vector of three C++ unsigned ints. -/
structure Vector3ui where
  x : Nat
  y : Nat
  z : Nat
deriving DecidableEq, Repr

/-- Embedding of the Vector3ui(s) scalar-fill constructor. -/
def Vector3ui.ofScalar (s : Nat) : Vector3ui :=
  { x := s % UINT_MOD, y := s % UINT_MOD, z := s % UINT_MOD }

/-- Componentwise vector + scalar, as in the C++ expression v + 1u. -/
def Vector3ui.addScalar (v : Vector3ui) (s : Nat) : Vector3ui :=
  { x := uadd v.x s, y := uadd v.y s, z := uadd v.z s }

/-- Componentwise vector - scalar, as in the C++ expression v - 1u. -/
def Vector3ui.subScalar (v : Vector3ui) (s : Nat) : Vector3ui :=
  { x := usub v.x s, y := usub v.y s, z := usub v.z s }

/-- Embedding of GenericImageData as seen through the calls the model layer
makes on it: IsMainLoaded, IsRGBLoaded, IsOverlayLoaded, GetMain()->GetSize(). -/
structure GenericImageData where
  mainLoaded : Bool
  rgbLoaded : Bool
  overlayLoaded : Bool
  mainSize : Vector3ui
deriving DecidableEq, Repr

/-- Opaque value of a SNAPSegmentationROISettings object; the model layer only
forwards it, never inspects it. -/
abbrev ROISettings := Nat

/-- Embedding of GlobalState as seen through the calls the model layer makes:
GetSegmentationROISettings, GetPolygonDrawingContextMenu. -/
structure GlobalStateS where
  segmentationROISettings : ROISettings
  polygonDrawingContextMenu : Bool
deriving DecidableEq, Repr

/-- Embedding of the IRISApplication driver state as seen through the calls
the model layer makes on it. The system interface is an opaque handle.
snapImageDataROI records the argument of the last InitializeSNAPImageData
call; currentImageIsSNAP records SetCurrentImageDataToSNAP. -/
structure IRISApplicationS where
  currentImageData : GenericImageData
  cursorPosition : Vector3ui
  globalState : GlobalStateS
  systemInterface : Nat
  snakeModeActive : Bool
  snapImageDataROI : Option ROISettings
  currentImageIsSNAP : Bool
deriving DecidableEq, Repr

/-- Embedding of IRISApplication::GetSystemInterface. -/
def IRISApplicationS.getSystemInterface (d : IRISApplicationS) : Nat :=
  d.systemInterface

/-- Embedding of IRISApplication::GetGlobalState. -/
def IRISApplicationS.getGlobalState (d : IRISApplicationS) : GlobalStateS :=
  d.globalState

/-- Embedding of IRISApplication::SetCursorPosition. -/
def IRISApplicationS.setCursorPosition
    (d : IRISApplicationS) (v : Vector3ui) : IRISApplicationS :=
  { d with cursorPosition := v }

/-- Embedding of the ToolbarModeType enumeration (values used in
GlobalUIModel.cxx: CROSSHAIRS_MODE at construction, NAVIGATION_MODE in
EnterActiveContourMode). -/
inductive ToolbarMode where
  | CROSSHAIRS_MODE
  | NAVIGATION_MODE
  | POLYGON_DRAWING_MODE
  | PAINTBRUSH_MODE
  | ANNOTATION_MODE
  | ROI_MODE
deriving DecidableEq, Repr

/-- Embedding of the UIState enumeration handled by GlobalUIModel::CheckState. -/
inductive UIState where
  | UIF_RGB_LOADED
  | UIF_BASEIMG_LOADED
  | UIF_IRIS_ACTIVE
  | UIF_MESH_DIRTY
  | UIF_MESH_ACTION_PENDING
  | UIF_ROI_VALID
  | UIF_LINKED_ZOOM
  | UIF_UNDO_POSSIBLE
  | UIF_REDO_POSSIBLE
  | UIF_UNSAVED_CHANGES
  | UIF_MESH_SAVEABLE
  | UIF_GRAY_LOADED
  | UIF_OVERLAY_LOADED
  | UIF_SNAKE_MODE
deriving DecidableEq, Repr

/-- Embedding of a GenericSliceModel after GenericSliceModel::New() followed
by Initialize(parent, index): it holds its parent model handle and its
slice index. -/
structure GenericSliceModelS where
  parentModel : Nat
  sliceIndex : Nat
deriving DecidableEq, Repr

/-- Embedding of one iteration of the construction loop in the
GlobalUIModel constructor: the GenericSliceModel together with the parents
assigned by SetParent to the cursor navigation, polygon drawing and snake
ROI models created for that slice. -/
structure SliceSubmodels where
  sliceModel : GenericSliceModelS
  cursorNavigationParent : GenericSliceModelS
  polygonDrawingParent : GenericSliceModelS
  snakeROIParent : GenericSliceModelS
deriving DecidableEq, Repr

/-- Embedding of the body of the loop `for i in 0..2` in the GlobalUIModel
constructor: GenericSliceModel::New + Initialize(this, i), then New +
SetParent(slice) for each of the three per-slice sub-models. -/
def mkSliceSubmodels (self : Nat) (i : Nat) : SliceSubmodels :=
  let slice : GenericSliceModelS := { parentModel := self, sliceIndex := i }
  { sliceModel := slice
  , cursorNavigationParent := slice
  , polygonDrawingParent := slice
  , snakeROIParent := slice }

/-- Embedding of SliceWindowCoordinator: its linked-zoom flag and the slice
models passed to RegisterSliceModels. -/
structure SliceWindowCoordinatorS where
  linkedZoom : Bool
  registeredModels : List GenericSliceModelS
deriving DecidableEq, Repr

/-- Embedding of the GlobalUIModel state: the driver, the per-slice model
groups built by the constructor, the slice window coordinator, and the
toolbar mode property. -/
structure GlobalUIModelState where
  driver : IRISApplicationS
  sliceSetups : List SliceSubmodels
  coordinator : SliceWindowCoordinatorS
  toolbarMode : ToolbarMode
deriving DecidableEq, Repr

/-- Embedding of the slice-model part of the GlobalUIModel constructor
(GlobalUIModel.cxx lines 64-84 plus the toolbar mode property at line 121):
three loop iterations building the slice model groups, registration of the
three slice models with one SliceWindowCoordinator, and the initial
toolbar mode CROSSHAIRS_MODE. -/
def constructGlobalUIModel (self : Nat) (driver : IRISApplicationS)
    (linkedZoom : Bool) : GlobalUIModelState :=
  let setups := (List.range 3).map (mkSliceSubmodels self)
  { driver := driver
  , sliceSetups := setups
  , coordinator :=
      { linkedZoom := linkedZoom
      , registeredModels := setups.map (fun s => s.sliceModel) }
  , toolbarMode := ToolbarMode.CROSSHAIRS_MODE }

/-- Embedding of GlobalUIModel::CheckState: the switch over UIState, with
the cases that only break falling through to `return false`. -/
def GlobalUIModelState.checkState (m : GlobalUIModelState) (s : UIState) : Bool :=
  match s with
  | UIState.UIF_RGB_LOADED => m.driver.currentImageData.rgbLoaded
  | UIState.UIF_BASEIMG_LOADED => m.driver.currentImageData.mainLoaded
  | UIState.UIF_IRIS_ACTIVE => true
  | UIState.UIF_MESH_DIRTY => false
  | UIState.UIF_MESH_ACTION_PENDING => false
  | UIState.UIF_ROI_VALID => false
  | UIState.UIF_LINKED_ZOOM => m.coordinator.linkedZoom
  | UIState.UIF_UNDO_POSSIBLE => false
  | UIState.UIF_REDO_POSSIBLE => false
  | UIState.UIF_UNSAVED_CHANGES => false
  | UIState.UIF_MESH_SAVEABLE => false
  | UIState.UIF_GRAY_LOADED => m.driver.currentImageData.mainLoaded
  | UIState.UIF_OVERLAY_LOADED => m.driver.currentImageData.overlayLoaded
  | UIState.UIF_SNAKE_MODE => m.driver.snakeModeActive

/-- Embedding of GlobalUIModel::GetSystemInterface: forwards to the driver. -/
def GlobalUIModelState.getSystemInterface (m : GlobalUIModelState) : Nat :=
  m.driver.getSystemInterface

/-- Embedding of GlobalUIModel::GetGlobalState: forwards to the driver. -/
def GlobalUIModelState.getGlobalState (m : GlobalUIModelState) : GlobalStateS :=
  m.driver.getGlobalState

/-- Embedding of NumericValueRange<Vector3ui>, set by range->Set(min,max,step). -/
structure NumericValueRange where
  minimum : Vector3ui
  maximum : Vector3ui
  stepSize : Vector3ui
deriving DecidableEq, Repr

/-- Embedding of GlobalUIModel::GetCursorPositionValueAndRange: when the main
image is loaded it returns true with value = driver cursor + 1u and range
[Vector3ui(1u), main image size] with step Vector3ui(1u); otherwise false.
The bool-with-out-parameters protocol becomes an Option. -/
def GlobalUIModelState.getCursorPositionValueAndRange
    (m : GlobalUIModelState) : Option (Vector3ui × NumericValueRange) :=
  if m.driver.currentImageData.mainLoaded then
    some (m.driver.cursorPosition.addScalar 1,
          { minimum := Vector3ui.ofScalar 1
          , maximum := m.driver.currentImageData.mainSize
          , stepSize := Vector3ui.ofScalar 1 })
  else
    none

/-- Embedding of GlobalUIModel::SetCursorPosition: stores value - 1u in the
driver via its SetCursorPosition. -/
def GlobalUIModelState.setCursorPosition
    (m : GlobalUIModelState) (v : Vector3ui) : GlobalUIModelState :=
  { m with driver := m.driver.setCursorPosition (v.subScalar 1) }

/-- Step performed by GlobalUIModel::EnterActiveContourMode, recorded in
order of execution. -/
inductive ContourModeStep where
  | initSNAPImageData (roi : ROISettings)
  | setCurrentImageDataToSNAP
  | setToolbarMode (mode : ToolbarMode)
deriving DecidableEq, Repr

/-- Embedding of GlobalUIModel::EnterActiveContourMode: initializes the
driver SNAP image data from the global state segmentation ROI settings,
switches the driver current image data to SNAP, then sets the toolbar mode
to NAVIGATION_MODE; the returned trace records the steps in order. -/
def GlobalUIModelState.enterActiveContourMode
    (m : GlobalUIModelState) : GlobalUIModelState × List ContourModeStep :=
  let roi := m.driver.getGlobalState.segmentationROISettings
  let d1 := { m.driver with snapImageDataROI := some roi }
  let d2 := { d1 with currentImageIsSNAP := true }
  ({ m with driver := d2, toolbarMode := ToolbarMode.NAVIGATION_MODE },
   [ContourModeStep.initSNAPImageData roi,
    ContourModeStep.setCurrentImageDataToSNAP,
    ContourModeStep.setToolbarMode ToolbarMode.NAVIGATION_MODE])

/-! Embedding of LoadImageNonInteractive (GlobalUIModel.cxx lines 211-240). -/

/-- Warning message of the IRISWarning class, carried in IRISWarningList. -/
abbrev IRISWarning := String

/-- Embedding of the GuidedNativeImageIO object state as driven by
LoadImageNonInteractive: which file it reads, and whether the header and the
image data have been read. -/
structure NativeImageState where
  fileName : String
  headerRead : Bool
  dataRead : Bool
deriving DecidableEq, Repr

/-- State of the GuidedNativeImageIO object right after
ReadNativeImageHeader(fname, folder). -/
def ioAfterHeader (fname : String) : NativeImageState :=
  { fileName := fname, headerRead := true, dataRead := false }

/-- State of the GuidedNativeImageIO object right after ReadNativeImageData. -/
def ioAfterData (fname : String) : NativeImageState :=
  { fileName := fname, headerRead := true, dataRead := true }

/-- Embedding of AbstractLoadImageDelegate: ValidateHeader and ValidateImage
receive the IO object and the warning list by reference; here each returns
the updated warning list. -/
structure AbstractLoadImageDelegate where
  validateHeaderFn : NativeImageState → List IRISWarning → List IRISWarning
  validateImageFn : NativeImageState → List IRISWarning → List IRISWarning

/-- Event performed by LoadImageNonInteractive, in execution order. The two
validation events record the warning list passed to the delegate call. -/
inductive LoadEvent where
  | findRegistryAssociatedWithFile (fname : String)
  | readNativeImageHeader (fname : String)
  | validateHeader (wl : List IRISWarning)
  | readNativeImageData
  | validateImage (wl : List IRISWarning)
  | updateApplicationWithImage
deriving DecidableEq, Repr

/-- Embedding of GlobalUIModel::LoadImageNonInteractive: look up the registry
for the file, read the native image header, validate the header against the
caller-supplied warning list, read the image data, validate the image against
the same (updated) warning list, then update the application with the image.
Returns the final warning list and the trace of events in execution order. -/
def loadImageNonInteractive (fname : String)
    (del : AbstractLoadImageDelegate) (wl : List IRISWarning) :
    List IRISWarning × List LoadEvent :=
  let io1 := ioAfterHeader fname
  let wl1 := del.validateHeaderFn io1 wl
  let io2 := { io1 with dataRead := true }
  let wl2 := del.validateImageFn io2 wl1
  (wl2,
   [LoadEvent.findRegistryAssociatedWithFile fname,
    LoadEvent.readNativeImageHeader fname,
    LoadEvent.validateHeader wl,
    LoadEvent.readNativeImageData,
    LoadEvent.validateImage wl1,
    LoadEvent.updateApplicationWithImage])

/-! Embedding of PolygonDrawingInteractionMode (src/unnamed/part_001). -/

/-- Embedding of the Qt mouse buttons dispatched on by the interaction mode. -/
inductive MouseButton where
  | leftButton
  | rightButton
  | middleButton
  | noButton
deriving DecidableEq, Repr

/-- Embedding of the Qt keyboard modifier flags tested by the interaction
mode (ShiftModifier, ControlModifier, MetaModifier). -/
structure KeyModifiers where
  shiftModifier : Bool
  controlModifier : Bool
  metaModifier : Bool
deriving DecidableEq, Repr

/-- Embedding of a QMouseEvent as read by the handlers: its button and its
modifier flags. -/
structure QMouseEventS where
  button : MouseButton
  modifiers : KeyModifiers
deriving DecidableEq, Repr

/-- Call made on the PolygonDrawingModel by a mouse event handler, with the
slice coordinates (m_XSlice components) it forwarded. -/
inductive PolyCall where
  | pushEvent (x y : Int) (shift : Bool)
  | dragEvent (x y : Int)
  | moveEvent (x y : Int)
  | releaseEvent (x y : Int)
deriving DecidableEq, Repr

/-- Embedding of the PolygonDrawingModel methods invoked by the interaction
mode; each returns the bool the C++ method returns. -/
structure PolygonDrawingModelS where
  processPushEvent : Int → Int → Bool → Bool
  processDragEvent : Int → Int → Bool
  processMouseMoveEvent : Int → Int → Bool
  processReleaseEvent : Int → Int → Bool

/-- Result of one mouse event handler run: the model calls it made, whether
it called ev->accept(), and whether it called this->update(). -/
structure HandlerResult where
  calls : List PolyCall
  acceptCalled : Bool
  updateCalled : Bool
deriving DecidableEq, Repr

/-- Embedding of PolygonDrawingInteractionMode::mousePressEvent: on the left
button, forward to ProcessPushEvent with the slice coordinates and the shift
modifier, and accept the event exactly when the model returns true. -/
def mousePressEvent (m : PolygonDrawingModelS) (xSlice0 xSlice1 : Int)
    (ev : QMouseEventS) : HandlerResult :=
  if ev.button = MouseButton.leftButton then
    let r := m.processPushEvent xSlice0 xSlice1 ev.modifiers.shiftModifier
    { calls := [PolyCall.pushEvent xSlice0 xSlice1 ev.modifiers.shiftModifier]
    , acceptCalled := r
    , updateCalled := false }
  else
    { calls := [], acceptCalled := false, updateCalled := false }

/-- Embedding of PolygonDrawingInteractionMode::mouseMoveEvent: with the left
button down (m_LeftDown) forward to ProcessDragEvent, otherwise to
ProcessMouseMoveEvent (also triggering update()); in each branch accept the
event exactly when the model returns true. -/
def mouseMoveEvent (m : PolygonDrawingModelS) (xSlice0 xSlice1 : Int)
    (leftDown : Bool) : HandlerResult :=
  if leftDown then
    let r := m.processDragEvent xSlice0 xSlice1
    { calls := [PolyCall.dragEvent xSlice0 xSlice1]
    , acceptCalled := r
    , updateCalled := false }
  else
    let r := m.processMouseMoveEvent xSlice0 xSlice1
    { calls := [PolyCall.moveEvent xSlice0 xSlice1]
    , acceptCalled := r
    , updateCalled := r }

/-- Embedding of PolygonDrawingInteractionMode::mouseReleaseEvent: on the
left button, forward to ProcessReleaseEvent and accept the event exactly when
the model returns true. -/
def mouseReleaseEvent (m : PolygonDrawingModelS) (xSlice0 xSlice1 : Int)
    (ev : QMouseEventS) : HandlerResult :=
  if ev.button = MouseButton.leftButton then
    let r := m.processReleaseEvent xSlice0 xSlice1
    { calls := [PolyCall.releaseEvent xSlice0 xSlice1]
    , acceptCalled := r
    , updateCalled := false }
  else
    { calls := [], acceptCalled := false, updateCalled := false }

/-- Embedding of PolygonDrawingInteractionMode::contextMenuEvent: the
contextMenuRequested signal is emitted when the global state option
GetPolygonDrawingContextMenu is set, or the Control modifier is held, or the
Meta modifier is held. Returns whether the signal was emitted. -/
def contextMenuEvent (gs : GlobalStateS) (mods : KeyModifiers) : Bool :=
  gs.polygonDrawingContextMenu || mods.controlModifier || mods.metaModifier

/-- Embedding of PolygonDrawingModel::AcceptPolygon as called by the
interaction mode: it receives the warning list by reference and returns the
updated list. -/
structure PolygonAcceptModel where
  acceptPolygon : List IRISWarning → List IRISWarning

/-- Result of onAcceptPolygon: the warning list after AcceptPolygon, and the
argument of the QtWarningDialog::show call when one was made. -/
structure AcceptPolygonResult where
  finalWarnings : List IRISWarning
  dialogShown : Option (List IRISWarning)
deriving DecidableEq, Repr

/-- Embedding of PolygonDrawingInteractionMode::onAcceptPolygon: create a
fresh (empty) warning list, run the model AcceptPolygon on it, and show the
QtWarningDialog exactly when the resulting list is non-empty. -/
def onAcceptPolygon (m : PolygonAcceptModel) : AcceptPolygonResult :=
  let warnings : List IRISWarning := []
  let warnings2 := m.acceptPolygon warnings
  { finalWarnings := warnings2
  , dialogShown := if warnings2.length ≠ 0 then some warnings2 else none }

/-! Theorems for the claims. -/

/-- Round trip of the C++ unsigned decrement and increment: for an unsigned
value of at least 1, subtracting 1 and adding 1 modulo 2^32 gives the value
back. -/
theorem uadd_usub_one (a : Nat) (h1 : 1 ≤ a) (h2 : a < UINT_MOD) :
    uadd (usub a 1) 1 = a := by
  simp only [uadd, usub, UINT_MOD] at *
  omega

/-- Vector version of the round trip: componentwise (v - 1u) + 1u = v for a
vector with all components in [1, 2^32). -/
theorem addScalar_subScalar_one (v : Vector3ui)
    (hx1 : 1 ≤ v.x) (hy1 : 1 ≤ v.y) (hz1 : 1 ≤ v.z)
    (hx2 : v.x < UINT_MOD) (hy2 : v.y < UINT_MOD) (hz2 : v.z < UINT_MOD) :
    (v.subScalar 1).addScalar 1 = v := by
  cases v with
  | mk x y z =>
    simp only [Vector3ui.subScalar, Vector3ui.addScalar, Vector3ui.mk.injEq]
    exact ⟨uadd_usub_one x hx1 hx2, uadd_usub_one y hy1 hy2,
           uadd_usub_one z hz1 hz2⟩

/-- C1: LoadImageNonInteractive reads the header, then invokes the delegate
ValidateHeader with the caller-supplied warning list, then reads the image
data, then invokes ValidateImage with the same warning list (now holding the
header warnings), and performs UpdateApplicationWithImage exactly once, after
both validation steps; the returned warning list is the caller list threaded
through both validators. -/
theorem load_image_noninteractive_validation_order
    (fname : String) (del : AbstractLoadImageDelegate) (wl : List IRISWarning) :
    ((loadImageNonInteractive fname del wl).2)[1]? =
        some (LoadEvent.readNativeImageHeader fname) ∧
    ((loadImageNonInteractive fname del wl).2)[2]? =
        some (LoadEvent.validateHeader wl) ∧
    ((loadImageNonInteractive fname del wl).2)[3]? =
        some LoadEvent.readNativeImageData ∧
    ((loadImageNonInteractive fname del wl).2)[4]? =
        some (LoadEvent.validateImage
                (del.validateHeaderFn (ioAfterHeader fname) wl)) ∧
    ((loadImageNonInteractive fname del wl).2)[5]? =
        some LoadEvent.updateApplicationWithImage ∧
    ((loadImageNonInteractive fname del wl).2).count
        LoadEvent.updateApplicationWithImage = 1 ∧
    (loadImageNonInteractive fname del wl).1 =
        del.validateImageFn (ioAfterData fname)
          (del.validateHeaderFn (ioAfterHeader fname) wl) := by
  refine ⟨rfl, rfl, rfl, rfl, rfl, ?_, rfl⟩
  rfl

/-- C2: the polygon-drawing interaction mode forwards a press event to
ProcessPushEvent exactly for the left button, a release event to
ProcessReleaseEvent exactly for the left button, a move event to
ProcessDragEvent when the left button is down and to ProcessMouseMoveEvent
otherwise, and in every case calls accept() on the event exactly when the
invoked model method returns true. -/
theorem polygon_mouse_dispatch
    (m : PolygonDrawingModelS) (x0 x1 : Int) (ev : QMouseEventS)
    (leftDown : Bool) :
    (ev.button = MouseButton.leftButton →
      (mousePressEvent m x0 x1 ev).calls =
          [PolyCall.pushEvent x0 x1 ev.modifiers.shiftModifier] ∧
      (mousePressEvent m x0 x1 ev).acceptCalled =
          m.processPushEvent x0 x1 ev.modifiers.shiftModifier) ∧
    (ev.button ≠ MouseButton.leftButton →
      (mousePressEvent m x0 x1 ev).calls = [] ∧
      (mousePressEvent m x0 x1 ev).acceptCalled = false) ∧
    (ev.button = MouseButton.leftButton →
      (mouseReleaseEvent m x0 x1 ev).calls = [PolyCall.releaseEvent x0 x1] ∧
      (mouseReleaseEvent m x0 x1 ev).acceptCalled =
          m.processReleaseEvent x0 x1) ∧
    (ev.button ≠ MouseButton.leftButton →
      (mouseReleaseEvent m x0 x1 ev).calls = [] ∧
      (mouseReleaseEvent m x0 x1 ev).acceptCalled = false) ∧
    (leftDown = true →
      (mouseMoveEvent m x0 x1 leftDown).calls = [PolyCall.dragEvent x0 x1] ∧
      (mouseMoveEvent m x0 x1 leftDown).acceptCalled =
          m.processDragEvent x0 x1) ∧
    (leftDown = false →
      (mouseMoveEvent m x0 x1 leftDown).calls = [PolyCall.moveEvent x0 x1] ∧
      (mouseMoveEvent m x0 x1 leftDown).acceptCalled =
          m.processMouseMoveEvent x0 x1) := by
  refine ⟨?_, ?_, ?_, ?_, ?_, ?_⟩ <;> intro h
  all_goals first
    | (subst h
       exact ⟨rfl, rfl⟩)
    | (constructor <;> simp [mousePressEvent, mouseReleaseEvent, h])

/-- Model used by witnesses of the interaction-mode theorems: push and move
succeed, drag and release fail. -/
def wPolyModel : PolygonDrawingModelS :=
  { processPushEvent := fun _ _ _ => true
  , processDragEvent := fun _ _ => false
  , processMouseMoveEvent := fun _ _ => true
  , processReleaseEvent := fun _ _ => false }

/-- Left-button mouse event with no modifiers, used by witnesses. -/
def wLeftEvent : QMouseEventS :=
  { button := MouseButton.leftButton
  , modifiers :=
      { shiftModifier := false, controlModifier := false
      , metaModifier := false } }

/-- Witness for the mouse-dispatch theorem at a concrete model and a concrete
left-button press: the push call is forwarded and the event is accepted. -/
theorem polygon_mouse_dispatch_witness :
    (mousePressEvent wPolyModel 3 4 wLeftEvent).calls =
        [PolyCall.pushEvent 3 4 false] ∧
    (mousePressEvent wPolyModel 3 4 wLeftEvent).acceptCalled = true := by
  have h := polygon_mouse_dispatch wPolyModel 3 4 wLeftEvent true
  exact ⟨(h.1 rfl).1, ((h.1 rfl).2).trans rfl⟩

/-- C3: onAcceptPolygon passes a fresh empty warning list to the model
AcceptPolygon, and shows the QtWarningDialog on the resulting list exactly
when that list is non-empty. -/
theorem accept_polygon_dialog (m : PolygonAcceptModel) :
    (onAcceptPolygon m).finalWarnings = m.acceptPolygon [] ∧
    (onAcceptPolygon m).dialogShown =
      (if m.acceptPolygon [] = [] then none else some (m.acceptPolygon [])) := by
  refine ⟨rfl, ?_⟩
  simp only [onAcceptPolygon]
  rcases h : m.acceptPolygon [] with _ | ⟨w, ws⟩ <;> simp [h]

/-- C4: the constructor creates exactly three slice model groups; group i
holds a GenericSliceModel initialized with this model and index i, with the
cursor navigation, polygon drawing and snake ROI models all parented to that
slice model; and the three slice models, in order, are registered with the
single SliceWindowCoordinator. -/
theorem constructor_three_slice_views
    (self : Nat) (d : IRISApplicationS) (lz : Bool) :
    (constructGlobalUIModel self d lz).sliceSetups.length = 3 ∧
    (∀ i : Fin 3, ∃ s : SliceSubmodels,
      ((constructGlobalUIModel self d lz).sliceSetups)[i.val]? = some s ∧
      s.sliceModel = { parentModel := self, sliceIndex := i.val } ∧
      s.cursorNavigationParent = s.sliceModel ∧
      s.polygonDrawingParent = s.sliceModel ∧
      s.snakeROIParent = s.sliceModel) ∧
    (constructGlobalUIModel self d lz).coordinator.registeredModels =
      ((constructGlobalUIModel self d lz).sliceSetups).map
        (fun s => s.sliceModel) ∧
    (constructGlobalUIModel self d lz).coordinator.registeredModels.length = 3 := by
  refine ⟨rfl, ?_, rfl, rfl⟩
  intro i
  fin_cases i <;>
    exact ⟨mkSliceSubmodels self _, rfl, rfl, rfl, rfl, rfl⟩

/-- C5: GlobalUIModel holds no cursor or interface state of its own:
GetSystemInterface and GetGlobalState return exactly the driver values, and
SetCursorPosition only forwards the decremented value to the driver
SetCursorPosition, leaving every other part of the model state unchanged. -/
theorem model_mediates_to_driver (m : GlobalUIModelState) (v : Vector3ui) :
    m.getSystemInterface = m.driver.getSystemInterface ∧
    m.getGlobalState = m.driver.getGlobalState ∧
    (m.setCursorPosition v).driver =
        m.driver.setCursorPosition (v.subScalar 1) ∧
    (m.setCursorPosition v).sliceSetups = m.sliceSetups ∧
    (m.setCursorPosition v).coordinator = m.coordinator ∧
    (m.setCursorPosition v).toolbarMode = m.toolbarMode := by
  cases m
  exact ⟨rfl, rfl, rfl, rfl, rfl, rfl⟩

/-- C6: EnterActiveContourMode performs exactly, and in this order, the SNAP
image data initialization with the global state segmentation ROI settings,
the switch of the current image data to SNAP, and the change of the toolbar
mode to NAVIGATION_MODE; the resulting state reflects all three. -/
theorem enter_active_contour_mode_steps (m : GlobalUIModelState) :
    (m.enterActiveContourMode).2 =
      [ContourModeStep.initSNAPImageData
          m.driver.globalState.segmentationROISettings,
       ContourModeStep.setCurrentImageDataToSNAP,
       ContourModeStep.setToolbarMode ToolbarMode.NAVIGATION_MODE] ∧
    (m.enterActiveContourMode).1.driver.snapImageDataROI =
        some m.driver.globalState.segmentationROISettings ∧
    (m.enterActiveContourMode).1.driver.currentImageIsSNAP = true ∧
    (m.enterActiveContourMode).1.toolbarMode = ToolbarMode.NAVIGATION_MODE := by
  cases m
  exact ⟨rfl, rfl, rfl, rfl⟩

/-- C8: with the main image loaded, the cursor model is a 1-offset view of
the driver cursor: the value/range getter returns the driver cursor plus 1
with range [1, main image size] and unit step, the setter stores value minus
1 in the driver, and setting an in-range value then getting returns that
value. -/
theorem cursor_model_one_offset (m : GlobalUIModelState) (v : Vector3ui)
    (hmain : m.driver.currentImageData.mainLoaded = true)
    (hx1 : 1 ≤ v.x) (hy1 : 1 ≤ v.y) (hz1 : 1 ≤ v.z)
    (hx2 : v.x ≤ m.driver.currentImageData.mainSize.x)
    (hy2 : v.y ≤ m.driver.currentImageData.mainSize.y)
    (hz2 : v.z ≤ m.driver.currentImageData.mainSize.z)
    (hbx : m.driver.currentImageData.mainSize.x < UINT_MOD)
    (hby : m.driver.currentImageData.mainSize.y < UINT_MOD)
    (hbz : m.driver.currentImageData.mainSize.z < UINT_MOD) :
    m.getCursorPositionValueAndRange =
      some (m.driver.cursorPosition.addScalar 1,
            { minimum := Vector3ui.ofScalar 1
            , maximum := m.driver.currentImageData.mainSize
            , stepSize := Vector3ui.ofScalar 1 }) ∧
    (m.setCursorPosition v).driver.cursorPosition = v.subScalar 1 ∧
    (m.setCursorPosition v).getCursorPositionValueAndRange =
      some (v,
            { minimum := Vector3ui.ofScalar 1
            , maximum := m.driver.currentImageData.mainSize
            , stepSize := Vector3ui.ofScalar 1 }) := by
  have hv : (v.subScalar 1).addScalar 1 = v :=
    addScalar_subScalar_one v hx1 hy1 hz1
      (lt_of_le_of_lt hx2 hbx) (lt_of_le_of_lt hy2 hby)
      (lt_of_le_of_lt hz2 hbz)
  cases m with
  | mk driver sliceSetups coordinator toolbarMode =>
    cases driver with
    | mk currentImageData cursorPosition globalState systemInterface
         snakeModeActive snapImageDataROI currentImageIsSNAP =>
      simp only [GlobalUIModelState.getCursorPositionValueAndRange,
                 GlobalUIModelState.setCursorPosition,
                 IRISApplicationS.setCursorPosition] at *
      simp [hmain, hv]

/-- Driver state used by the cursor witness: main image loaded with size
(5,6,7), cursor at the origin. -/
def wDriver : IRISApplicationS :=
  { currentImageData :=
      { mainLoaded := true, rgbLoaded := false, overlayLoaded := false
      , mainSize := { x := 5, y := 6, z := 7 } }
  , cursorPosition := { x := 0, y := 0, z := 0 }
  , globalState :=
      { segmentationROISettings := 0, polygonDrawingContextMenu := false }
  , systemInterface := 0
  , snakeModeActive := false
  , snapImageDataROI := none
  , currentImageIsSNAP := false }

/-- Model state used by the cursor witness. -/
def wCursorModel : GlobalUIModelState :=
  { driver := wDriver
  , sliceSetups := []
  , coordinator := { linkedZoom := false, registeredModels := [] }
  , toolbarMode := ToolbarMode.CROSSHAIRS_MODE }

/-- Witness for the cursor round trip at a concrete state: setting the cursor
model to (2,3,4) and reading it back yields (2,3,4). -/
theorem cursor_model_one_offset_witness :
    (wCursorModel.setCursorPosition
        { x := 2, y := 3, z := 4 }).getCursorPositionValueAndRange =
      some ({ x := 2, y := 3, z := 4 },
            { minimum := Vector3ui.ofScalar 1
            , maximum := { x := 5, y := 6, z := 7 }
            , stepSize := Vector3ui.ofScalar 1 }) := by
  have h := cursor_model_one_offset wCursorModel { x := 2, y := 3, z := 4 }
    rfl (by decide) (by decide) (by decide) (by decide) (by decide)
    (by decide) (by decide) (by decide) (by decide)
  exact h.2.2

/-- C9: CheckState returns the same value for UIF_GRAY_LOADED and
UIF_BASEIMG_LOADED, both reporting whether the current image data has the
main image loaded. -/
theorem gray_loaded_equals_baseimg_loaded (m : GlobalUIModelState) :
    m.checkState UIState.UIF_GRAY_LOADED =
        m.checkState UIState.UIF_BASEIMG_LOADED ∧
    m.checkState UIState.UIF_GRAY_LOADED =
        m.driver.currentImageData.mainLoaded :=
  ⟨rfl, rfl⟩

/-- C10: the context menu event emits contextMenuRequested exactly when the
polygon-drawing-context-menu option is enabled, or the Control modifier is
held, or the Meta modifier is held. -/
theorem context_menu_condition (gs : GlobalStateS) (mods : KeyModifiers) :
    contextMenuEvent gs mods = true ↔
      (gs.polygonDrawingContextMenu = true ∨
       mods.controlModifier = true ∨
       mods.metaModifier = true) := by
  simp [contextMenuEvent, Bool.or_eq_true, or_assoc]
